import Mathlib

/-!
Shallow embedding of the reconciliation/auth core of the
terraform-provider-akw-azure-crayon repository, together with theorems
settling the behavioural claims about it.

Conventions of the embedding:
* Machine integers (Go `int`, `int64`) are modelled as `Int`; time instants
  and durations are modelled in whole seconds as `Int`/`Nat`.
* The network and the external CLI are modelled as explicit oracles passed
  into each function: an `HttpOutcome` describes what one HTTP exchange
  produced (transport error, or a status code together with the decoded
  body when decoding succeeded).
* Mutable fields of `client.Client` (the two token caches) are modelled as
  an explicit `ClientState` threaded through the functions.

The repository contains concatenated superseded revisions of several files;
definitions here follow the current revision in
`internal/client/auth.go`, `internal/client/subscriptions.go` and the
second (latest) revision in `internal/resources/azure_subscription.go`.
-/

namespace Crayon

/-! ## Configuration and client state (internal/client: ClientConfig, Client) -/

/-- `ClientConfig` from the client package: credentials for the billing
(Crayon) API and the optional Azure Service-Principal triple. -/
structure ClientConfig where
  BaseURL : String
  ClientID : String
  ClientSecret : String
  Username : String
  Password : String
  AzureClientID : String
  AzureClientSecret : String
  AzureTenantID : String
  deriving Repr, DecidableEq

/-- The mutable token-cache fields of `client.Client`: the billing token
with its expiry and the Azure token with its expiry (expiries in seconds). -/
structure ClientState where
  token : String
  tokenExp : Int
  azureToken : String
  azureTokenExp : Int
  deriving Repr, DecidableEq

/-- `TokenResponse` (auth.go): decoded body of the billing token endpoint. -/
structure TokenResponse where
  AccessToken : String
  TokenType : String
  ExpiresIn : Int
  deriving Repr, DecidableEq

/-- `AzureTokenResponse` (auth.go): decoded body of the Azure AD token
endpoint. -/
structure AzureTokenResponse where
  accessTokenField : String
  expiresInField : Int
  deriving Repr, DecidableEq

/-- `AzureCLITokenResponse` (auth.go): decoded output of
`az account get-access-token`. -/
structure AzureCLITokenResponse where
  accessToken : String
  expiresOn : String
  deriving Repr, DecidableEq

/-- Outcome of one HTTP exchange, as seen by the calling code: either the
transport failed (`httpClient.Do` or body read returned an error), or a
response with a status code arrived, `parsed` being the decoded body when
JSON unmarshalling succeeded. -/
inductive HttpOutcome (α : Type) where
  | transportError (msg : String)
  | response (status : Nat) (parsed : Option α)

/-! ## Base64 (encoding/base64 StdEncoding, used for the Basic-Auth header) -/

def base64Alphabet : List Char :=
  "ABCDEFGHIJKLMNOPQRSTUVWXYZabcdefghijklmnopqrstuvwxyz0123456789+/".toList

def b64char (n : Nat) : Char := base64Alphabet.getD n 'A'

/-- Standard base64 of a byte sequence (each `Nat` is one byte value). -/
def base64EncodeBytes : List Nat → List Char
  | [] => []
  | [b1] => [b64char (b1 / 4), b64char (b1 % 4 * 16), '=', '=']
  | [b1, b2] => [b64char (b1 / 4), b64char (b1 % 4 * 16 + b2 / 16), b64char (b2 % 16 * 4), '=']
  | b1 :: b2 :: b3 :: rest =>
      b64char (b1 / 4) :: b64char (b1 % 4 * 16 + b2 / 16) ::
      b64char (b2 % 16 * 4 + b3 / 64) :: b64char (b3 % 64) :: base64EncodeBytes rest

def base64Encode (s : String) : String :=
  String.mk (base64EncodeBytes (s.toUTF8.toList.map (fun b => b.toNat)))

/-! ## Billing token acquisition (auth.go: getToken and friends) -/

/-- The outbound form-encoded POST that `requestToken` builds: URL,
Content-Type, Authorization header, and the form fields (in the order the
source `Set`s them; `url.Values` is a string map). -/
structure FormRequest where
  url : String
  contentType : String
  authHeader : String
  formBody : List (String × String)
  deriving Repr, DecidableEq

/-- Form fields of `getTokenWithClientCredentials`. -/
def getTokenWithClientCredentialsForm : List (String × String) :=
  [("grant_type", "client_credentials"), ("scope", "CustomerApi")]

/-- Form fields of `getTokenWithPassword`. -/
def getTokenWithPasswordForm (cfg : ClientConfig) : List (String × String) :=
  [("grant_type", "password"), ("username", cfg.Username),
   ("password", cfg.Password), ("scope", "CustomerApi")]

/-- The request `requestToken` sends: POST to `BaseURL/api/v1/connect/token`
with a Basic-Auth header carrying base64(clientID:clientSecret). -/
def requestTokenRequest (cfg : ClientConfig) (data : List (String × String)) : FormRequest :=
  { url := cfg.BaseURL ++ "/api/v1/connect/token"
    contentType := "application/x-www-form-urlencoded"
    authHeader := "Basic " ++ base64Encode (cfg.ClientID ++ ":" ++ cfg.ClientSecret)
    formBody := data }

/-- Result processing of `requestToken` (auth.go lines 94-115): transport
errors propagate, a non-200 status is an error carrying the status, an
unparseable body is an error, otherwise the decoded `TokenResponse`. -/
def requestToken (outcome : HttpOutcome TokenResponse) : Except String TokenResponse :=
  match outcome with
  | .transportError m => .error ("token request failed: " ++ m)
  | .response status parsed =>
    if status ≠ 200 then .error ("token request failed with status " ++ toString status)
    else
      match parsed with
      | none => .error "failed to parse token response"
      | some tr => .ok tr

/-- Result of one `getToken`-style call: the returned value or error, the
client state afterwards, and the outbound token-endpoint request if one was
made (`none` when served from the cache). -/
structure BillingTokenCall where
  result : Except String String
  state : ClientState
  request : Option FormRequest

/-- `getToken` (auth.go lines 27-53): return the cached token when it is
non-empty and `now` is strictly before `tokenExp - 60`; otherwise pick the
password grant when both Username and Password are non-empty (else the
client-credentials grant), perform the request, and on success store the
fresh token with expiry `now + ExpiresIn`. -/
def getToken (cfg : ClientConfig) (st : ClientState) (now : Int)
    (outcome : HttpOutcome TokenResponse) : BillingTokenCall :=
  if st.token ≠ "" ∧ now < st.tokenExp - 60 then
    { result := .ok st.token, state := st, request := none }
  else
    let data :=
      if cfg.Username ≠ "" ∧ cfg.Password ≠ "" then getTokenWithPasswordForm cfg
      else getTokenWithClientCredentialsForm
    let req := requestTokenRequest cfg data
    match requestToken outcome with
    | .error e => { result := .error e, state := st, request := some req }
    | .ok tr =>
      { result := .ok tr.AccessToken
        state := { st with token := tr.AccessToken, tokenExp := now + tr.ExpiresIn }
        request := some req }

/-! ## Azure token acquisition (auth.go: getAzureToken and friends) -/

/-- Which of the two mutually exclusive acquisition strategies ran. -/
inductive AzureAuthStrategy where
  | servicePrincipal
  | cli
  deriving Repr, DecidableEq

/-- Result of one `getAzureToken`-style call; `usedStrategy` is `none` when
the call was served from the cache. -/
structure AzureTokenCall where
  result : Except String String
  state : ClientState
  usedStrategy : Option AzureAuthStrategy

/-- `getAzureTokenWithServicePrincipal` (auth.go lines 268-307): POST the
client-credentials form to the tenant token endpoint; on a 200 with a
parseable body cache the token with expiry `now + expires_in`, on any
failure return an error leaving the cache untouched. -/
def getAzureTokenWithServicePrincipal (st : ClientState) (now : Int)
    (outcome : HttpOutcome AzureTokenResponse) : AzureTokenCall :=
  match outcome with
  | .transportError m =>
    { result := .error ("azure token request failed: " ++ m), state := st
      usedStrategy := some .servicePrincipal }
  | .response status parsed =>
    if status ≠ 200 then
      { result := .error ("azure token request failed with status " ++ toString status)
        state := st, usedStrategy := some .servicePrincipal }
    else
      match parsed with
      | none =>
        { result := .error "failed to parse azure token response", state := st
          usedStrategy := some .servicePrincipal }
      | some tr =>
        { result := .ok tr.accessTokenField
          state := { st with azureToken := tr.accessTokenField
                             azureTokenExp := now + tr.expiresInField }
          usedStrategy := some .servicePrincipal }

/-- `getAzureTokenWithCLI` (auth.go lines 310-330): run
`az account get-access-token`; on parseable output cache the token with a
fixed 50-minute expiry, on failure return an error leaving the cache
untouched. The oracle `cliOutput` is the parsed command output. -/
def getAzureTokenWithCLI (st : ClientState) (now : Int)
    (cliOutput : Except String AzureCLITokenResponse) : AzureTokenCall :=
  match cliOutput with
  | .error m =>
    { result := .error ("failed to get token from Azure CLI: " ++ m), state := st
      usedStrategy := some .cli }
  | .ok tr =>
    { result := .ok tr.accessToken
      state := { st with azureToken := tr.accessToken, azureTokenExp := now + 50 * 60 }
      usedStrategy := some .cli }

/-- `getAzureToken` (auth.go lines 252-265): return the cached token when it
is non-empty and `now` is strictly before `azureTokenExp - 60`; otherwise
use the Service-Principal flow exactly when all three of AzureClientID,
AzureClientSecret and AzureTenantID are non-empty, and fall back to the
Azure CLI session in every other configuration. -/
def getAzureToken (cfg : ClientConfig) (st : ClientState) (now : Int)
    (spOutcome : HttpOutcome AzureTokenResponse)
    (cliOutput : Except String AzureCLITokenResponse) : AzureTokenCall :=
  if st.azureToken ≠ "" ∧ now < st.azureTokenExp - 60 then
    { result := .ok st.azureToken, state := st, usedStrategy := none }
  else if cfg.AzureClientID ≠ "" ∧ cfg.AzureClientSecret ≠ "" ∧ cfg.AzureTenantID ≠ "" then
    getAzureTokenWithServicePrincipal st now spOutcome
  else
    getAzureTokenWithCLI st now cliOutput

/-! ## Subscriptions (internal/client/subscriptions.go) -/

/-- `AzureSubscription`: a Crayon (billing-side) subscription record. -/
structure AzureSubscription where
  ID : Int
  FriendlyName : String
  SubscriptionID : String
  Status : String
  AzurePlanID : Int
  deriving Repr, DecidableEq

/-- `AzureARMSubscription`: one entry of the Azure ARM listing. -/
structure AzureARMSubscription where
  SubscriptionID : String
  DisplayName : String
  State : String
  deriving Repr, DecidableEq

/-- Outcome of one ARM listing attempt inside `WaitForAzureSubscription`:
transport error, body-read error, non-200 status, undecodable body, or the
decoded subscription list. All failure shapes are logged and polling
continues. -/
inductive ArmListOutcome where
  | transportError
  | readError
  | badStatus (code : Nat)
  | decodeError
  | ok (subs : List AzureARMSubscription)
  deriving Repr, DecidableEq

/-- The scan inside `WaitForAzureSubscription` (lines 244-249): first entry
whose `DisplayName` equals `name` exactly yields its GUID. -/
def scanForName (name : String) : List AzureARMSubscription → Option String
  | [] => none
  | sub :: rest =>
    if sub.DisplayName = name then some sub.SubscriptionID else scanForName name rest

/-- What one tick of the polling loop produces: the GUID when the listing
succeeded and contained the name, `none` in every other case (each failure
shape merely continues the loop). -/
def attemptResult (name : String) : ArmListOutcome → Option String
  | .ok subs => scanForName name subs
  | _ => none

/-- Number of 30-second ticker firings that happen strictly before the
`time.After(timeout)` channel fires, i.e. the number of listing attempts
the loop can make: ticks occur at 30, 60, 90, ... seconds. A tick that
coincides exactly with the timeout instant is resolved in favour of the
timeout (Go `select` picks randomly on a tie; no claim depends on it). -/
def numTicksBefore (timeoutSec : Nat) : Nat := (timeoutSec - 1) / 30

/-- The `for`/`select` loop of `WaitForAzureSubscription` (subscriptions.go
lines 210-251), modelled with the tick index `k` (the k-th tick occurs at
time `30*k` seconds) and fuel `r` = remaining ticks before the timeout
fires. Returns the result together with the trace of instants (in seconds
from entry) at which listing attempts were performed. -/
def waitLoop (name : String) (attempts : Nat → ArmListOutcome) :
    Nat → Nat → Except String String × List Nat
  | _, 0 => (.error ("timeout waiting for subscription " ++ name ++ " to appear in Azure"), [])
  | k, r + 1 =>
    match attemptResult name (attempts k) with
    | some guid => (.ok guid, [30 * k])
    | none =>
      let rest := waitLoop name attempts (k + 1) r
      (rest.1, 30 * k :: rest.2)

/-- `WaitForAzureSubscription` (subscriptions.go lines 198-252): acquire an
Azure token (failure propagates immediately, with no listing attempt), then
run the interval-then-poll loop: the first listing attempt happens at the
first ticker firing, 30 seconds after entry. -/
def waitForAzureSubscription (name : String) (timeoutSec : Nat)
    (tokenResult : Except String String) (attempts : Nat → ArmListOutcome) :
    Except String String × List Nat :=
  match tokenResult with
  | .error e => (.error e, [])
  | .ok _ => waitLoop name attempts 1 (numTicksBefore timeoutSec)

/-- Outcome of the create POST as classified by `parseResponse`: transport
error (including token-acquisition failure inside `doRequest`), the
distinguished `ErrAccepted` (202 with empty body), any other API error, or
a directly materialized record. -/
inductive CreateHttpOutcome where
  | transportError (msg : String)
  | accepted
  | apiError (msg : String)
  | okRecord (sub : AzureSubscription)
  deriving Repr, DecidableEq

/-- `CreateAzureSubscription` (subscriptions.go lines 77-128): POST the
create request; a directly returned record is passed through verbatim; on
`ErrAccepted` poll Azure ARM for up to 20 minutes and return an `active`
record carrying the discovered GUID on success, or a `provisioning` record
with the literal GUID `"pending"` (and no error) when polling fails for
any reason; any other error is returned as-is. -/
def createAzureSubscription (azurePlanID : Int) (name : String)
    (createResp : CreateHttpOutcome)
    (armTokenResult : Except String String) (attempts : Nat → ArmListOutcome) :
    Except String AzureSubscription :=
  match createResp with
  | .transportError m => .error m
  | .apiError m => .error m
  | .okRecord sub => .ok sub
  | .accepted =>
    match (waitForAzureSubscription name (20 * 60) armTokenResult attempts).1 with
    | .ok guid =>
      .ok { ID := 0, FriendlyName := name, SubscriptionID := guid
            Status := "active", AzurePlanID := azurePlanID }
    | .error _ =>
      .ok { ID := 0, FriendlyName := name, SubscriptionID := "pending"
            Status := "provisioning", AzurePlanID := azurePlanID }

/-- The scan inside `FindAzureSubscriptionByName` (subscriptions.go lines
261-265): first entry whose `FriendlyName` equals `name` exactly. -/
def findByFriendlyName (name : String) : List AzureSubscription → Option AzureSubscription
  | [] => none
  | sub :: rest =>
    if sub.FriendlyName = name then some sub else findByFriendlyName name rest

/-- `FindAzureSubscriptionByName` (subscriptions.go lines 255-268): list the
plan's subscriptions (`listOutcome` is what `GetAzureSubscriptions`
produced) and linearly scan for the exact name; not found is an error. -/
def findAzureSubscriptionByName (azurePlanID : Int) (name : String)
    (listOutcome : Except String (List AzureSubscription)) : Except String AzureSubscription :=
  match listOutcome with
  | .error e => .error ("failed to get subscriptions: " ++ e)
  | .ok subs =>
    match findByFriendlyName name subs with
    | some sub => .ok sub
    | none =>
      .error ("subscription " ++ name ++ " not found in Azure Plan " ++ toString azurePlanID)

/-! ## Resource lifecycle (internal/resources/azure_subscription.go,
second (latest) revision: the one with pending-marker support) -/

/-- `AzureSubscriptionResourceModel`: the Terraform state record.
`ID` is a string: either the decimal Crayon numeric ID or the pending
marker `"pending-" ++ name`. -/
structure ResourceModel where
  ID : String
  AzurePlanID : Int
  Name : String
  SubscriptionID : String
  Status : String
  deriving Repr, DecidableEq

/-- One outbound billing-API call made by a resource operation. -/
inductive ApiCall where
  | rename (azurePlanID subscriptionID : Int) (newName : String)
  | cancel (azurePlanID subscriptionID : Int)
  | findByName (azurePlanID : Int) (name : String)
  | getSubscription (azurePlanID subscriptionID : Int)
  deriving Repr, DecidableEq

/-- Character-list core of Go `strings.HasPrefix`. -/
def listStartsWith : List Char → List Char → Bool
  | _, [] => true
  | [], _ :: _ => false
  | c :: s, p :: ps => c = p && listStartsWith s ps

/-- Go `strings.HasPrefix s pre`. -/
def strStartsWith (s pre : String) : Bool := listStartsWith s.toList pre.toList

/-- Go `strings.TrimPrefix s pre`: drop `pre` from the front when present,
otherwise return `s` unchanged. -/
def strTrimStart (s pre : String) : String :=
  if strStartsWith s pre then String.mk (s.toList.drop pre.toList.length) else s

/-- Decimal digit value. -/
def digitVal (c : Char) : Option Nat :=
  if '0' ≤ c ∧ c ≤ '9' then some (c.toNat - '0'.toNat) else none

def parseDigitsAux : List Char → Nat → Option Nat
  | [], acc => some acc
  | c :: rest, acc =>
    match digitVal c with
    | none => none
    | some d => parseDigitsAux rest (acc * 10 + d)

/-- At least one digit, all digits. -/
def parseDigits : List Char → Option Nat
  | [] => none
  | cs => parseDigitsAux cs 0

/-- Go `strconv.ParseInt(s, 10, 64)` (and `strconv.Atoi`, which on a 64-bit
platform is the same function): optional sign, decimal digits, int64 range
check. -/
def parseIntBase10 (s : String) : Option Int :=
  let signed : Option Int :=
    match s.toList with
    | '+' :: rest => (parseDigits rest).map (fun n => (n : Int))
    | '-' :: rest => (parseDigits rest).map (fun n => -(n : Int))
    | cs => (parseDigits cs).map (fun n => (n : Int))
  match signed with
  | none => none
  | some n => if -(2 ^ 63) ≤ n ∧ n < 2 ^ 63 then some n else none

/-- Go `strconv.Atoi`. -/
def atoi (s : String) : Option Int := parseIntBase10 s

/-- Outcome of a `Read`: the state kept unchanged with an advisory warning
(pending, not yet synced), the state replaced with fresh data, or an
error diagnostic. -/
inductive ReadOutcome where
  | stillPending (newState : ResourceModel)
  | updated (newState : ResourceModel)
  | failed (msg : String)
  deriving Repr, DecidableEq

/-- `AzureSubscriptionResource.Read` (azure_subscription.go lines 523-606).
For an ID carrying the `"pending-"` marker: strip the marker
(`strings.TrimPrefix`), look the name up in Cloud-iQ via
`FindAzureSubscriptionByName`; on failure keep the prior state unchanged
and surface an advisory warning; on success replace the marker with the
full record (numeric ID, GUID, status, name). For a numeric ID: fetch the
record (`getOutcome` is what `GetAzureSubscription` produced) and refresh
name/GUID/status. Also returns the outbound billing calls performed. -/
def readResource (st : ResourceModel)
    (listOutcome : Except String (List AzureSubscription))
    (getOutcome : Except String AzureSubscription) :
    ReadOutcome × List ApiCall :=
  if strStartsWith st.ID "pending-" then
    let subscriptionName := strTrimStart st.ID "pending-"
    match findAzureSubscriptionByName st.AzurePlanID subscriptionName listOutcome with
    | .error _ => (.stillPending st, [.findByName st.AzurePlanID subscriptionName])
    | .ok sub =>
      (.updated { st with ID := toString sub.ID
                          SubscriptionID := sub.SubscriptionID
                          Status := sub.Status
                          Name := sub.FriendlyName },
       [.findByName st.AzurePlanID subscriptionName])
  else
    match atoi st.ID with
    | none => (.failed "Could not parse subscription ID", [])
    | some subscriptionID =>
      match getOutcome with
      | .error e =>
        (.failed ("Could not read subscription: " ++ e),
         [.getSubscription st.AzurePlanID subscriptionID])
      | .ok sub =>
        (.updated { st with Name := sub.FriendlyName
                            SubscriptionID := sub.SubscriptionID
                            Status := sub.Status },
         [.getSubscription st.AzurePlanID subscriptionID])

/-- The state a Read leaves behind: on a failed diagnostic Terraform keeps
the prior state. Used to iterate reads for the idempotence claim. -/
def readNewState (prior : ResourceModel) : ReadOutcome → ResourceModel
  | .stillPending s => s
  | .updated s => s
  | .failed _ => prior

/-- `n` successive Read cycles on a pending record, the i-th cycle seeing
billing listing outcome `outs i` (the `GetAzureSubscription` oracle is
irrelevant on the pending path). -/
def iterateReadPending (st : ResourceModel)
    (outs : Nat → Except String (List AzureSubscription)) : Nat → ResourceModel
  | 0 => st
  | n + 1 =>
    let prev := iterateReadPending st outs n
    readNewState prev (readResource prev (outs n) (.error "not consulted")).1

/-- `AzureSubscriptionResource.Update` (azure_subscription.go lines
608-690): a pending-marker ID is rejected with an error before anything
else; otherwise the ID is parsed and, when the name changed, the rename
endpoint is called (GUID and status are preserved from state when the
rename response leaves them empty); when the name is unchanged no call is
made and state fields are preserved. -/
def updateResource (plan st : ResourceModel)
    (renameOutcome : Except String AzureSubscription) :
    Except String ResourceModel × List ApiCall :=
  if strStartsWith st.ID "pending-" then
    (.error "Cannot Update Pending Subscription: the subscription has not yet synced to Cloud-iQ", [])
  else
    match atoi st.ID with
    | none => (.error "Could not parse subscription ID", [])
    | some subscriptionID =>
      if plan.Name ≠ st.Name then
        match renameOutcome with
        | .error e =>
          (.error ("Could not rename subscription: " ++ e),
           [.rename plan.AzurePlanID subscriptionID plan.Name])
        | .ok sub =>
          (.ok { plan with
                   ID := st.ID
                   SubscriptionID :=
                     if sub.SubscriptionID ≠ "" then sub.SubscriptionID else st.SubscriptionID
                   Status := if sub.Status ≠ "" then sub.Status else st.Status },
           [.rename plan.AzurePlanID subscriptionID plan.Name])
      else
        (.ok { plan with ID := st.ID, SubscriptionID := st.SubscriptionID, Status := st.Status },
         [])

/-- Outcome of a `Delete`: for a pending-marker ID the record is removed
from state with only a warning (success, no API call); otherwise the
cancel endpoint is called and its failure is an error diagnostic. -/
inductive DeleteOutcome where
  | removedWithWarning (warning : String)
  | failed (msg : String)
  | cancelled
  deriving Repr, DecidableEq

/-- `AzureSubscriptionResource.Delete` (azure_subscription.go lines
692-749): a pending-marker ID is removed from state only, with a warning
and zero outbound calls; a numeric ID is cancelled through the billing
API. -/
def deleteResource (st : ResourceModel) (cancelOutcome : Except String Unit) :
    DeleteOutcome × List ApiCall :=
  if strStartsWith st.ID "pending-" then
    (.removedWithWarning "Subscription Removed From State Only", [])
  else
    match atoi st.ID with
    | none => (.failed "Could not parse subscription ID", [])
    | some subscriptionID =>
      match cancelOutcome with
      | .error e =>
        (.failed ("Could not cancel subscription: " ++ e),
         [.cancel st.AzurePlanID subscriptionID])
      | .ok _ => (.cancelled, [.cancel st.AzurePlanID subscriptionID])

/-! ## Import (azure_subscription.go: splitImportID, ImportState) -/

/-- The loop body of `splitImportID` (lines 777-790): `current` is the
accumulator of the characters since the last colon. -/
def splitImportIDAux : List Char → String → List String
  | [], current => [current]
  | c :: rest, current =>
    if c = ':' then current :: splitImportIDAux rest ""
    else splitImportIDAux rest (current.push c)

/-- `splitImportID`: split on every colon character. -/
def splitImportID (id : String) : List String := splitImportIDAux id.toList ""

/-- Joining with colons interleaved — the inverse operation the lossless
claim is stated against. -/
def joinColon : List String → String
  | [] => ""
  | [s] => s
  | s :: t :: rest => s ++ ":" ++ joinColon (t :: rest)

/-- Number of colon characters in a character list. -/
def colonCount : List Char → Nat
  | [] => 0
  | c :: rest => (if c = ':' then 1 else 0) + colonCount rest

/-- Go `strconv.ParseInt(s, 10, 64)`. -/
def parseInt64 (s : String) : Option Int := parseIntBase10 s

def invalidImportFormatMsg : String :=
  "Import ID must be in format azure_plan_id:subscription_id"

def invalidPlanIDMsg : String := "Could not parse azure_plan_id"

/-- `AzureSubscriptionResource.ImportState` (azure_subscription.go lines
751-775): split the composite key; anything other than exactly two parts
is rejected; the first part must parse as an int64 (the plan ID); on
success the plan ID and the second part (the subscription ID string) are
written into state. -/
def importStateParts (reqID : String) : Except String (Int × String) :=
  match splitImportID reqID with
  | [a, b] =>
    match parseInt64 a with
    | none => .error invalidPlanIDMsg
    | some planID => .ok (planID, b)
  | _ => .error invalidImportFormatMsg

/-! ## Concrete sample data used by counterexamples and witnesses -/

/-- A state record carrying the pending marker, as the Create path writes
it for name `"demo"`. -/
def pendingDemoState : ResourceModel :=
  { ID := "pending-demo", AzurePlanID := 1, Name := "demo"
    SubscriptionID := "pending", Status := "provisioning" }

/-- A pending state record for name `"sub-a"` under plan 873834. -/
def pendingSubAState : ResourceModel :=
  { ID := "pending-sub-a", AzurePlanID := 873834, Name := "sub-a"
    SubscriptionID := "pending", Status := "provisioning" }

/-- The billing record for `"sub-a"` once synced to Cloud-iQ. -/
def syncedSubA : AzureSubscription :=
  { ID := 42, FriendlyName := "sub-a"
    SubscriptionID := "11111111-1111-1111-1111-111111111111"
    Status := "active", AzurePlanID := 873834 }

/-- A planned rename of record 7. -/
def renamePlanState : ResourceModel :=
  { ID := "7", AzurePlanID := 1, Name := "new-name"
    SubscriptionID := "g", Status := "active" }

/-- `true` exactly on the error diagnostic outcome of a Delete. -/
def isDeleteFailed : DeleteOutcome → Bool
  | .failed _ => true
  | _ => false

/-! ## Helper lemmas about the ARM polling loop -/

theorem waitLoop_never (name : String) (attempts : Nat → ArmListOutcome)
    (h : ∀ k, attemptResult name (attempts k) = none) :
    ∀ r k, (waitLoop name attempts k r).1 =
      .error ("timeout waiting for subscription " ++ name ++ " to appear in Azure") := by
  intro r
  induction r with
  | zero => intro k; rfl
  | succ r ih =>
    intro k
    simp only [waitLoop, h k]
    exact ih (k + 1)

theorem waitLoop_finds (name : String) (attempts : Nat → ArmListOutcome) (guid : String) :
    ∀ i k r, i < r → (∀ j, j < i → attemptResult name (attempts (k + j)) = none) →
      attemptResult name (attempts (k + i)) = some guid →
      (waitLoop name attempts k r).1 = .ok guid := by
  intro i
  induction i with
  | zero =>
    intro k r hr hpre hfind
    cases r with
    | zero => exact absurd hr (Nat.not_lt_zero 0)
    | succ r =>
      have : attemptResult name (attempts k) = some guid := by simpa using hfind
      simp only [waitLoop, this]
  | succ i ih =>
    intro k r hr hpre hfind
    cases r with
    | zero => exact absurd hr (Nat.not_lt_zero _)
    | succ r =>
      have h0 : attemptResult name (attempts k) = none := by
        simpa using hpre 0 (Nat.succ_pos i)
      simp only [waitLoop, h0]
      refine ih (k + 1) r (Nat.lt_of_succ_lt_succ hr) ?_ ?_
      · intro j hj
        have := hpre (j + 1) (Nat.succ_lt_succ hj)
        have harith : k + (j + 1) = k + 1 + j := by omega
        rwa [harith] at this
      · have harith : k + (i + 1) = k + 1 + i := by omega
        rwa [harith] at hfind

theorem waitLoop_trace_lb (name : String) (attempts : Nat → ArmListOutcome) :
    ∀ r k t, t ∈ (waitLoop name attempts k r).2 → 30 * k ≤ t := by
  intro r
  induction r with
  | zero => intro k t ht; simp [waitLoop] at ht
  | succ r ih =>
    intro k t ht
    cases hA : attemptResult name (attempts k) with
    | some g =>
      simp only [waitLoop, hA] at ht
      simp at ht
      omega
    | none =>
      simp only [waitLoop, hA] at ht
      rcases List.mem_cons.mp ht with h1 | h2
      · omega
      · have := ih (k + 1) t h2
        omega

theorem waitLoop_trace_head (name : String) (attempts : Nat → ArmListOutcome) :
    ∀ r k t, (waitLoop name attempts k r).2.head? = some t → t = 30 * k := by
  intro r
  induction r with
  | zero => intro k t ht; simp [waitLoop] at ht
  | succ r _ =>
    intro k t ht
    cases hA : attemptResult name (attempts k) with
    | some g =>
      simp only [waitLoop, hA] at ht
      simp at ht
      omega
    | none =>
      simp only [waitLoop, hA] at ht
      simp at ht
      omega

/-! ## Claims C1, C2, C7 -/

/-- Claim C1: when the billing create POST yields the distinguished
202-empty-body outcome and the Azure ARM polling never finds the name
(either because cloud authentication failed or because no attempt ever
matches), `CreateAzureSubscription` returns — with nil error — a record
with numeric ID 0, SubscriptionID the literal string `"pending"`, and
Status `"provisioning"`. -/
theorem createAzureSubscription_pending_on_timeout :
    ∀ (azurePlanID : Int) (name : String) (armTokenResult : Except String String)
      (attempts : Nat → ArmListOutcome),
      ((∃ e, armTokenResult = .error e) ∨ (∀ k, attemptResult name (attempts k) = none)) →
      createAzureSubscription azurePlanID name .accepted armTokenResult attempts =
        .ok { ID := 0, FriendlyName := name, SubscriptionID := "pending"
              Status := "provisioning", AzurePlanID := azurePlanID } := by
  intro azurePlanID name armTokenResult attempts h
  rcases h with ⟨e, he⟩ | hnone
  · subst he; rfl
  · cases armTokenResult with
    | error e => rfl
    | ok tok =>
      have hw := waitLoop_never name attempts hnone (numTicksBefore (20 * 60)) 1
      simp only [createAzureSubscription, waitForAzureSubscription, hw]

theorem createAzureSubscription_pending_on_timeout_witness :
    createAzureSubscription 873834 "sub-b" .accepted (.ok "tok") (fun _ => .transportError) =
      .ok { ID := 0, FriendlyName := "sub-b", SubscriptionID := "pending"
            Status := "provisioning", AzurePlanID := 873834 } :=
  createAzureSubscription_pending_on_timeout 873834 "sub-b" (.ok "tok")
    (fun _ => .transportError) (Or.inr (fun _ => rfl))

/-- Claim C2: when the create POST yields the 202-empty-body outcome, cloud
authentication succeeds, and some listing attempt within the timeout window
returns a subscription whose DisplayName exactly equals the requested name
(all earlier attempts matching nothing), `CreateAzureSubscription` returns
— with nil error — a record with numeric ID 0, SubscriptionID equal to the
discovered Azure GUID, and Status `"active"`. -/
theorem createAzureSubscription_active_on_found :
    ∀ (azurePlanID : Int) (name tok guid : String) (attempts : Nat → ArmListOutcome)
      (i : Nat) (subs : List AzureARMSubscription),
      i < numTicksBefore (20 * 60) →
      (∀ j, j < i → attemptResult name (attempts (1 + j)) = none) →
      attempts (1 + i) = .ok subs →
      scanForName name subs = some guid →
      createAzureSubscription azurePlanID name .accepted (.ok tok) attempts =
        .ok { ID := 0, FriendlyName := name, SubscriptionID := guid
              Status := "active", AzurePlanID := azurePlanID } := by
  intro azurePlanID name tok guid attempts i subs hi hpre hsubs hscan
  have hfind : attemptResult name (attempts (1 + i)) = some guid := by
    rw [hsubs]; exact hscan
  have hw := waitLoop_finds name attempts guid i 1 (numTicksBefore (20 * 60)) hi hpre hfind
  simp only [createAzureSubscription, waitForAzureSubscription, hw]

theorem createAzureSubscription_active_on_found_witness :
    createAzureSubscription 873834 "sub-a" .accepted (.ok "tok")
        (fun _ => .ok [{ SubscriptionID := "11111111-1111-1111-1111-111111111111"
                         DisplayName := "sub-a", State := "Enabled" }]) =
      .ok { ID := 0, FriendlyName := "sub-a"
            SubscriptionID := "11111111-1111-1111-1111-111111111111"
            Status := "active", AzurePlanID := 873834 } :=
  createAzureSubscription_active_on_found 873834 "sub-a" "tok"
    "11111111-1111-1111-1111-111111111111"
    (fun _ => .ok [{ SubscriptionID := "11111111-1111-1111-1111-111111111111"
                     DisplayName := "sub-a", State := "Enabled" }])
    0 [{ SubscriptionID := "11111111-1111-1111-1111-111111111111"
         DisplayName := "sub-a", State := "Enabled" }]
    (by decide) (fun j hj => absurd hj (Nat.not_lt_zero j)) rfl (by decide)

/-- Claim C7: in `WaitForAzureSubscription` the very first listing attempt
happens only after the first 30-second ticker interval: every attempt in
the trace occurs at an instant of at least 30 seconds after entry, and the
first attempt (when one happens at all) occurs exactly at 30 seconds —
never immediately on entry. -/
theorem waitForAzureSubscription_interval_then_poll :
    ∀ (name : String) (timeoutSec : Nat) (tokenResult : Except String String)
      (attempts : Nat → ArmListOutcome),
      (∀ t, t ∈ (waitForAzureSubscription name timeoutSec tokenResult attempts).2 → 30 ≤ t) ∧
      (∀ t, (waitForAzureSubscription name timeoutSec tokenResult attempts).2.head? = some t →
        t = 30) := by
  intro name timeoutSec tokenResult attempts
  constructor
  · intro t ht
    cases tokenResult with
    | error e => simp [waitForAzureSubscription] at ht
    | ok tok =>
      have := waitLoop_trace_lb name attempts (numTicksBefore timeoutSec) 1 t
        (by simpa [waitForAzureSubscription] using ht)
      omega
  · intro t ht
    cases tokenResult with
    | error e => simp [waitForAzureSubscription] at ht
    | ok tok =>
      have := waitLoop_trace_head name attempts (numTicksBefore timeoutSec) 1 t
        (by simpa [waitForAzureSubscription] using ht)
      omega

theorem waitForAzureSubscription_interval_then_poll_witness :
    (30 : Nat) ≤ 30 ∧ (30 : Nat) = 30 :=
  ⟨(waitForAzureSubscription_interval_then_poll "s" 100 (.ok "t") (fun _ => .ok [])).1
      30 (by decide),
   (waitForAzureSubscription_interval_then_poll "s" 100 (.ok "t") (fun _ => .ok [])).2
      30 (by decide)⟩

/-! ## Claims C3, C4 -/

/-- Claim C3 counterexample: on a concrete pending-marker record, the
Delete (cancel) path performs zero outbound calls but does NOT fail with
an error — it succeeds, removing the record from state with only a
warning. This refutes the claim that both the rename and the cancel path
fail with a descriptive error on a pending-marker ID. -/
theorem delete_pending_warns_not_errors_cex :
    deleteResource pendingDemoState (.ok ()) =
      (.removedWithWarning "Subscription Removed From State Only", []) ∧
    isDeleteFailed (deleteResource pendingDemoState (.ok ())).1 = false := by
  exact ⟨rfl, rfl⟩

/-- Claim C3 (amended): for every state record whose ID carries the
`"pending-"` marker, the rename path (Update) fails with a descriptive
error and performs zero outbound calls, while the cancel path (Delete)
also performs zero outbound calls but succeeds, removing the record from
state with a warning instead of failing. -/
theorem pending_marker_blocks_rename_and_cancel :
    ∀ (plan st : ResourceModel) (renameOutcome : Except String AzureSubscription)
      (cancelOutcome : Except String Unit),
      strStartsWith st.ID "pending-" = true →
      updateResource plan st renameOutcome =
        (.error "Cannot Update Pending Subscription: the subscription has not yet synced to Cloud-iQ",
         []) ∧
      deleteResource st cancelOutcome =
        (.removedWithWarning "Subscription Removed From State Only", []) := by
  intro plan st renameOutcome cancelOutcome h
  constructor
  · simp only [updateResource, h, if_true]
  · simp only [deleteResource, h, if_true]

theorem pending_marker_blocks_rename_and_cancel_witness :
    updateResource renamePlanState pendingDemoState (.error "unused") =
      (.error "Cannot Update Pending Subscription: the subscription has not yet synced to Cloud-iQ",
       []) ∧
    deleteResource pendingDemoState (.error "unused") =
      (.removedWithWarning "Subscription Removed From State Only", []) :=
  pending_marker_blocks_rename_and_cancel renamePlanState pendingDemoState
    (.error "unused") (.error "unused") (by decide)

/-- Helper: the pending branch of Read when the billing lookup does not
find the name — the prior state is kept unchanged, with exactly the one
find-by-name outbound call. -/
theorem readResource_pending_notfound (st : ResourceModel)
    (listOutcome : Except String (List AzureSubscription))
    (getOutcome : Except String AzureSubscription)
    (hpending : strStartsWith st.ID "pending-" = true)
    (hmiss : ∀ subs, listOutcome = .ok subs →
      findByFriendlyName (strTrimStart st.ID "pending-") subs = none) :
    readResource st listOutcome getOutcome =
      (.stillPending st, [.findByName st.AzurePlanID (strTrimStart st.ID "pending-")]) := by
  simp only [readResource, hpending, if_true]
  cases listOutcome with
  | error e => rfl
  | ok subs =>
    have := hmiss subs rfl
    simp only [findAzureSubscriptionByName, this]

/-- Claim C4: pending-state resolution via Read is non-mutating and
idempotent. When the billing lookup does not find the pending name, Read
keeps the prior state unchanged (StillPending, advisory only); iterating
Read any number of times against listings that never contain the name
leaves the state identical; and when the name is found, Read replaces the
pending marker with the full record (numeric ID, GUID, status, name). -/
theorem read_pending_resolution :
    ∀ (st : ResourceModel) (listOutcome : Except String (List AzureSubscription))
      (getOutcome : Except String AzureSubscription),
      strStartsWith st.ID "pending-" = true →
      ((∀ subs, listOutcome = .ok subs →
          findByFriendlyName (strTrimStart st.ID "pending-") subs = none) →
        readResource st listOutcome getOutcome =
          (.stillPending st, [.findByName st.AzurePlanID (strTrimStart st.ID "pending-")])) ∧
      (∀ (outs : Nat → Except String (List AzureSubscription)) (n : Nat),
        (∀ i subs, outs i = .ok subs →
          findByFriendlyName (strTrimStart st.ID "pending-") subs = none) →
        iterateReadPending st outs n = st) ∧
      (∀ subs sub, listOutcome = .ok subs →
        findByFriendlyName (strTrimStart st.ID "pending-") subs = some sub →
        readResource st listOutcome getOutcome =
          (.updated { ID := toString sub.ID, AzurePlanID := st.AzurePlanID
                      Name := sub.FriendlyName, SubscriptionID := sub.SubscriptionID
                      Status := sub.Status },
           [.findByName st.AzurePlanID (strTrimStart st.ID "pending-")])) := by
  intro st listOutcome getOutcome hpending
  refine ⟨fun hmiss => readResource_pending_notfound st listOutcome getOutcome hpending hmiss,
          ?_, ?_⟩
  · intro outs n hmiss
    induction n with
    | zero => rfl
    | succ n ih =>
      simp only [iterateReadPending, ih]
      rw [readResource_pending_notfound st (outs n) (.error "not consulted") hpending
        (fun subs h => hmiss n subs h)]
      rfl
  · intro subs sub hlist hfound
    subst hlist
    simp only [readResource, hpending, if_true, findAzureSubscriptionByName, hfound]

theorem read_pending_resolution_witness :
    readResource pendingSubAState (.error "network down") (.error "not consulted") =
      (.stillPending pendingSubAState, [.findByName 873834 "sub-a"]) ∧
    readResource pendingSubAState (.ok [syncedSubA]) (.error "not consulted") =
      (.updated { ID := "42", AzurePlanID := 873834, Name := "sub-a"
                  SubscriptionID := "11111111-1111-1111-1111-111111111111"
                  Status := "active" },
       [.findByName 873834 "sub-a"]) :=
  ⟨(read_pending_resolution pendingSubAState (.error "network down") (.error "not consulted")
      (by decide)).1 (fun subs h => nomatch h),
   (read_pending_resolution pendingSubAState (.ok [syncedSubA]) (.error "not consulted")
      (by decide)).2.2 [syncedSubA] syncedSubA rfl (by decide)⟩

/-! ## Claims C5, C6, C8, C9 -/

/-- Claim C5: for both token caches, a call made while a token is cached
(non-empty) and the current time is strictly before the stored expiry
minus 60 seconds returns the cached value, leaves the state unchanged and
performs no acquisition; outside that window an acquisition is performed
and, when it succeeds, it replaces the cache entry (token and expiry). -/
theorem token_cache_hit_and_refresh :
    ∀ (cfg : ClientConfig) (st : ClientState) (now : Int)
      (outcome : HttpOutcome TokenResponse)
      (spOutcome : HttpOutcome AzureTokenResponse)
      (cliOutput : Except String AzureCLITokenResponse),
      ((st.token ≠ "" ∧ now < st.tokenExp - 60) →
        getToken cfg st now outcome =
          { result := .ok st.token, state := st, request := none }) ∧
      (¬(st.token ≠ "" ∧ now < st.tokenExp - 60) →
        (getToken cfg st now outcome).request.isSome = true ∧
        ∀ tr, outcome = .response 200 (some tr) →
          (getToken cfg st now outcome).state =
            { st with token := tr.AccessToken, tokenExp := now + tr.ExpiresIn }) ∧
      ((st.azureToken ≠ "" ∧ now < st.azureTokenExp - 60) →
        getAzureToken cfg st now spOutcome cliOutput =
          { result := .ok st.azureToken, state := st, usedStrategy := none }) ∧
      (¬(st.azureToken ≠ "" ∧ now < st.azureTokenExp - 60) →
        (getAzureToken cfg st now spOutcome cliOutput).usedStrategy.isSome = true ∧
        ((cfg.AzureClientID ≠ "" ∧ cfg.AzureClientSecret ≠ "" ∧ cfg.AzureTenantID ≠ "") →
          ∀ tr, spOutcome = .response 200 (some tr) →
            (getAzureToken cfg st now spOutcome cliOutput).state =
              { st with azureToken := tr.accessTokenField
                        azureTokenExp := now + tr.expiresInField }) ∧
        (¬(cfg.AzureClientID ≠ "" ∧ cfg.AzureClientSecret ≠ "" ∧ cfg.AzureTenantID ≠ "") →
          ∀ tr, cliOutput = .ok tr →
            (getAzureToken cfg st now spOutcome cliOutput).state =
              { st with azureToken := tr.accessToken, azureTokenExp := now + 50 * 60 })) := by
  intro cfg st now outcome spOutcome cliOutput
  refine ⟨fun h => ?_, fun h => ⟨?_, ?_⟩, fun h => ?_, fun h => ⟨?_, fun hsp tr htr => ?_, fun hsp tr htr => ?_⟩⟩
  · simp only [getToken, if_pos h]
  · simp only [getToken, if_neg h]
    cases hrt : requestToken outcome <;> simp
  · intro tr htr
    subst htr
    simp only [getToken, if_neg h, requestToken]
    norm_num
  · simp only [getAzureToken, if_pos h]
  · simp only [getAzureToken, if_neg h]
    by_cases hsp : cfg.AzureClientID ≠ "" ∧ cfg.AzureClientSecret ≠ "" ∧ cfg.AzureTenantID ≠ ""
    · rw [if_pos hsp]
      cases spOutcome with
      | transportError m => simp [getAzureTokenWithServicePrincipal]
      | response status parsed =>
        simp only [getAzureTokenWithServicePrincipal]
        by_cases hst : status ≠ 200
        · rw [if_pos hst]; simp
        · rw [if_neg hst]; cases parsed <;> simp
    · rw [if_neg hsp]
      cases cliOutput <;> simp [getAzureTokenWithCLI]
  · subst htr
    simp only [getAzureToken, if_neg h, if_pos hsp, getAzureTokenWithServicePrincipal]
    norm_num
  · subst htr
    simp only [getAzureToken, if_neg h, if_neg hsp, getAzureTokenWithCLI]

theorem token_cache_hit_and_refresh_witness :
    getToken { BaseURL := "https://api.crayon.com", ClientID := "cid", ClientSecret := "sec"
               Username := "", Password := "", AzureClientID := "", AzureClientSecret := ""
               AzureTenantID := "" }
        { token := "tokA", tokenExp := 1000, azureToken := "azA", azureTokenExp := 1000 }
        0 (.transportError "never sent") =
      { result := .ok "tokA"
        state := { token := "tokA", tokenExp := 1000, azureToken := "azA", azureTokenExp := 1000 }
        request := none } ∧
    (getToken { BaseURL := "https://api.crayon.com", ClientID := "cid", ClientSecret := "sec"
                Username := "", Password := "", AzureClientID := "", AzureClientSecret := ""
                AzureTenantID := "" }
        { token := "", tokenExp := 0, azureToken := "", azureTokenExp := 0 }
        0 (.response 200 (some { AccessToken := "fresh", TokenType := "Bearer", ExpiresIn := 3600 }))).state =
      { token := "fresh", tokenExp := 3600, azureToken := "", azureTokenExp := 0 } :=
  ⟨(token_cache_hit_and_refresh
      { BaseURL := "https://api.crayon.com", ClientID := "cid", ClientSecret := "sec"
        Username := "", Password := "", AzureClientID := "", AzureClientSecret := ""
        AzureTenantID := "" }
      { token := "tokA", tokenExp := 1000, azureToken := "azA", azureTokenExp := 1000 }
      0 (.transportError "never sent") (.transportError "never sent") (.error "never run")).1
    (by constructor
        · decide
        · decide),
   ((token_cache_hit_and_refresh
      { BaseURL := "https://api.crayon.com", ClientID := "cid", ClientSecret := "sec"
        Username := "", Password := "", AzureClientID := "", AzureClientSecret := ""
        AzureTenantID := "" }
      { token := "", tokenExp := 0, azureToken := "", azureTokenExp := 0 }
      0 (.response 200 (some { AccessToken := "fresh", TokenType := "Bearer", ExpiresIn := 3600 }))
      (.transportError "never sent") (.error "never run")).2.1
    (by intro hcontra
        exact hcontra.1 rfl)).2
    { AccessToken := "fresh", TokenType := "Bearer", ExpiresIn := 3600 } rfl⟩

/-- Claim C6: when the cloud token cache is not serving a cached value,
acquisition uses exactly one of the two strategies: the Service-Principal
client-credentials flow if and only if all three of Azure client id,
client secret and tenant id are non-empty; in every other configuration it
falls back to the Azure CLI session, and a successful CLI outcome yields a
token without any configuration error. -/
theorem azure_token_strategy_selection :
    ∀ (cfg : ClientConfig) (st : ClientState) (now : Int)
      (spOutcome : HttpOutcome AzureTokenResponse)
      (cliOutput : Except String AzureCLITokenResponse),
      ¬(st.azureToken ≠ "" ∧ now < st.azureTokenExp - 60) →
      (((cfg.AzureClientID ≠ "" ∧ cfg.AzureClientSecret ≠ "" ∧ cfg.AzureTenantID ≠ "") →
          getAzureToken cfg st now spOutcome cliOutput =
            getAzureTokenWithServicePrincipal st now spOutcome ∧
          (getAzureToken cfg st now spOutcome cliOutput).usedStrategy =
            some .servicePrincipal) ∧
       (¬(cfg.AzureClientID ≠ "" ∧ cfg.AzureClientSecret ≠ "" ∧ cfg.AzureTenantID ≠ "") →
          getAzureToken cfg st now spOutcome cliOutput =
            getAzureTokenWithCLI st now cliOutput ∧
          (getAzureToken cfg st now spOutcome cliOutput).usedStrategy = some .cli ∧
          (∀ tr, cliOutput = .ok tr →
            (getAzureToken cfg st now spOutcome cliOutput).result = .ok tr.accessToken))) := by
  intro cfg st now spOutcome cliOutput hcache
  constructor
  · intro hsp
    refine ⟨by simp only [getAzureToken, if_neg hcache, if_pos hsp], ?_⟩
    simp only [getAzureToken, if_neg hcache, if_pos hsp]
    cases spOutcome with
    | transportError m => rfl
    | response status parsed =>
      simp only [getAzureTokenWithServicePrincipal]
      by_cases hst : status ≠ 200
      · rw [if_pos hst]
      · rw [if_neg hst]; cases parsed <;> rfl
  · intro hsp
    refine ⟨by simp only [getAzureToken, if_neg hcache, if_neg hsp], ?_, ?_⟩
    · simp only [getAzureToken, if_neg hcache, if_neg hsp]
      cases cliOutput <;> rfl
    · intro tr htr
      subst htr
      simp only [getAzureToken, if_neg hcache, if_neg hsp, getAzureTokenWithCLI]

theorem azure_token_strategy_selection_witness :
    getAzureToken { BaseURL := "b", ClientID := "cid", ClientSecret := "sec"
                    Username := "", Password := "", AzureClientID := "spid"
                    AzureClientSecret := "", AzureTenantID := "tid" }
        { token := "", tokenExp := 0, azureToken := "", azureTokenExp := 0 }
        0 (.transportError "never sent") (.ok { accessToken := "cliTok", expiresOn := "soon" }) =
      getAzureTokenWithCLI
        { token := "", tokenExp := 0, azureToken := "", azureTokenExp := 0 }
        0 (.ok { accessToken := "cliTok", expiresOn := "soon" }) ∧
    (getAzureToken { BaseURL := "b", ClientID := "cid", ClientSecret := "sec"
                     Username := "", Password := "", AzureClientID := "spid"
                     AzureClientSecret := "", AzureTenantID := "tid" }
        { token := "", tokenExp := 0, azureToken := "", azureTokenExp := 0 }
        0 (.transportError "never sent")
        (.ok { accessToken := "cliTok", expiresOn := "soon" })).result = .ok "cliTok" := by
  have h := (azure_token_strategy_selection
    { BaseURL := "b", ClientID := "cid", ClientSecret := "sec"
      Username := "", Password := "", AzureClientID := "spid"
      AzureClientSecret := "", AzureTenantID := "tid" }
    { token := "", tokenExp := 0, azureToken := "", azureTokenExp := 0 }
    0 (.transportError "never sent") (.ok { accessToken := "cliTok", expiresOn := "soon" })
    (by intro hcontra
        exact hcontra.1 rfl)).2
    (by intro hcontra
        exact hcontra.2.1 rfl)
  exact ⟨h.1, h.2.2 { accessToken := "cliTok", expiresOn := "soon" } rfl⟩

/-- Claim C8: on a billing-token refresh, the grant is selected once: with
both username and password configured the password grant is used, sending
the Basic-Auth header (base64 of clientID:clientSecret) and grant type,
username, password and scope in the form body; otherwise the
client-credentials grant is used with the same Basic-Auth header and only
grant type and scope in the body; both POST the same token endpoint. -/
theorem billing_grant_selection :
    ∀ (cfg : ClientConfig) (st : ClientState) (now : Int) (outcome : HttpOutcome TokenResponse),
      ¬(st.token ≠ "" ∧ now < st.tokenExp - 60) →
      (((cfg.Username ≠ "" ∧ cfg.Password ≠ "") →
          (getToken cfg st now outcome).request = some
            { url := cfg.BaseURL ++ "/api/v1/connect/token"
              contentType := "application/x-www-form-urlencoded"
              authHeader := "Basic " ++ base64Encode (cfg.ClientID ++ ":" ++ cfg.ClientSecret)
              formBody := [("grant_type", "password"), ("username", cfg.Username),
                           ("password", cfg.Password), ("scope", "CustomerApi")] }) ∧
       (¬(cfg.Username ≠ "" ∧ cfg.Password ≠ "") →
          (getToken cfg st now outcome).request = some
            { url := cfg.BaseURL ++ "/api/v1/connect/token"
              contentType := "application/x-www-form-urlencoded"
              authHeader := "Basic " ++ base64Encode (cfg.ClientID ++ ":" ++ cfg.ClientSecret)
              formBody := [("grant_type", "client_credentials"), ("scope", "CustomerApi")] })) := by
  intro cfg st now outcome hcache
  constructor
  · intro hup
    simp only [getToken, if_neg hcache, if_pos hup]
    cases hrt : requestToken outcome <;>
      simp [requestTokenRequest, getTokenWithPasswordForm]
  · intro hup
    simp only [getToken, if_neg hcache, if_neg hup]
    cases hrt : requestToken outcome <;>
      simp [requestTokenRequest, getTokenWithClientCredentialsForm]

theorem billing_grant_selection_witness :
    (getToken { BaseURL := "https://api.crayon.com", ClientID := "cid", ClientSecret := "sec"
                Username := "alice", Password := "pw", AzureClientID := ""
                AzureClientSecret := "", AzureTenantID := "" }
        { token := "", tokenExp := 0, azureToken := "", azureTokenExp := 0 }
        0 (.transportError "refused")).request = some
      { url := "https://api.crayon.com" ++ "/api/v1/connect/token"
        contentType := "application/x-www-form-urlencoded"
        authHeader := "Basic " ++ base64Encode ("cid" ++ ":" ++ "sec")
        formBody := [("grant_type", "password"), ("username", "alice"),
                     ("password", "pw"), ("scope", "CustomerApi")] } :=
  (billing_grant_selection
    { BaseURL := "https://api.crayon.com", ClientID := "cid", ClientSecret := "sec"
      Username := "alice", Password := "pw", AzureClientID := ""
      AzureClientSecret := "", AzureTenantID := "" }
    { token := "", tokenExp := 0, azureToken := "", azureTokenExp := 0 }
    0 (.transportError "refused")
    (by intro hcontra
        exact hcontra.1 rfl)).1
    (by constructor
        · decide
        · decide)

/-- Claim C9: for both token caches, when acquisition fails (in any way:
transport error, non-200 status, or unparseable body) the call returns an
error and the client state — the cached token values and their stored
expiries — is exactly what it was before the call. -/
theorem token_cache_unchanged_on_failure :
    ∀ (cfg : ClientConfig) (st : ClientState) (now : Int)
      (outcome : HttpOutcome TokenResponse)
      (spOutcome : HttpOutcome AzureTokenResponse)
      (cliOutput : Except String AzureCLITokenResponse) (e : String),
      ((getToken cfg st now outcome).result = .error e →
        (getToken cfg st now outcome).state = st) ∧
      ((getAzureToken cfg st now spOutcome cliOutput).result = .error e →
        (getAzureToken cfg st now spOutcome cliOutput).state = st) := by
  intro cfg st now outcome spOutcome cliOutput e
  constructor
  · intro herr
    by_cases hcache : st.token ≠ "" ∧ now < st.tokenExp - 60
    · simp only [getToken, if_pos hcache]
    · simp only [getToken, if_neg hcache] at herr ⊢
      cases hrt : requestToken outcome with
      | error m => rfl
      | ok tr => rw [hrt] at herr; exact absurd herr (by simp)
  · intro herr
    by_cases hcache : st.azureToken ≠ "" ∧ now < st.azureTokenExp - 60
    · simp only [getAzureToken, if_pos hcache]
    · by_cases hsp : cfg.AzureClientID ≠ "" ∧ cfg.AzureClientSecret ≠ "" ∧ cfg.AzureTenantID ≠ ""
      · simp only [getAzureToken, if_neg hcache, if_pos hsp] at herr ⊢
        cases spOutcome with
        | transportError m => rfl
        | response status parsed =>
          simp only [getAzureTokenWithServicePrincipal] at herr ⊢
          by_cases hst : status ≠ 200
          · rw [if_pos hst]
          · rw [if_neg hst] at herr ⊢
            cases parsed with
            | none => rfl
            | some tr => simp at herr
      · simp only [getAzureToken, if_neg hcache, if_neg hsp] at herr ⊢
        cases cliOutput with
        | error m => rfl
        | ok tr => simp [getAzureTokenWithCLI] at herr

theorem token_cache_unchanged_on_failure_witness :
    (getToken { BaseURL := "b", ClientID := "cid", ClientSecret := "sec"
                Username := "", Password := "", AzureClientID := ""
                AzureClientSecret := "", AzureTenantID := "" }
        { token := "old", tokenExp := 10, azureToken := "azOld", azureTokenExp := 10 }
        100 (.transportError "refused")).state =
      { token := "old", tokenExp := 10, azureToken := "azOld", azureTokenExp := 10 } ∧
    (getAzureToken { BaseURL := "b", ClientID := "cid", ClientSecret := "sec"
                     Username := "", Password := "", AzureClientID := ""
                     AzureClientSecret := "", AzureTenantID := "" }
        { token := "old", tokenExp := 10, azureToken := "azOld", azureTokenExp := 10 }
        100 (.transportError "refused") (.error "az login missing")).state =
      { token := "old", tokenExp := 10, azureToken := "azOld", azureTokenExp := 10 } :=
  ⟨(token_cache_unchanged_on_failure
      { BaseURL := "b", ClientID := "cid", ClientSecret := "sec"
        Username := "", Password := "", AzureClientID := ""
        AzureClientSecret := "", AzureTenantID := "" }
      { token := "old", tokenExp := 10, azureToken := "azOld", azureTokenExp := 10 }
      100 (.transportError "refused") (.transportError "refused") (.error "az login missing")
      "token request failed: refused").1 rfl,
   (token_cache_unchanged_on_failure
      { BaseURL := "b", ClientID := "cid", ClientSecret := "sec"
        Username := "", Password := "", AzureClientID := ""
        AzureClientSecret := "", AzureTenantID := "" }
      { token := "old", tokenExp := 10, azureToken := "azOld", azureTokenExp := 10 }
      100 (.transportError "refused") (.transportError "refused") (.error "az login missing")
      "failed to get token from Azure CLI: az login missing").2 rfl⟩

/-! ## Claim C10: splitImportID and ImportState -/

theorem splitImportIDAux_ne_nil : ∀ (cs : List Char) (cur : String),
    splitImportIDAux cs cur ≠ [] := by
  intro cs
  induction cs with
  | nil => intro cur; simp [splitImportIDAux]
  | cons c rest ih =>
    intro cur
    simp only [splitImportIDAux]
    by_cases hc : c = ':'
    · rw [if_pos hc]; simp
    · rw [if_neg hc]; exact ih _

theorem splitImportIDAux_length : ∀ (cs : List Char) (cur : String),
    (splitImportIDAux cs cur).length = colonCount cs + 1 := by
  intro cs
  induction cs with
  | nil => intro cur; rfl
  | cons c rest ih =>
    intro cur
    simp only [splitImportIDAux, colonCount]
    by_cases hc : c = ':'
    · rw [if_pos hc, if_pos hc]
      simp [ih]
      omega
    · rw [if_neg hc, if_neg hc]
      simp [ih]

theorem joinColon_cons (s : String) (L : List String) (hL : L ≠ []) :
    joinColon (s :: L) = s ++ ":" ++ joinColon L := by
  cases L with
  | nil => exact absurd rfl hL
  | cons t ts => rfl

theorem splitImportIDAux_join : ∀ (cs curl : List Char),
    joinColon (splitImportIDAux cs (String.mk curl)) = String.mk (curl ++ cs) := by
  intro cs
  induction cs with
  | nil =>
    intro curl
    show String.mk curl = String.mk (curl ++ [])
    rw [List.append_nil]
  | cons c rest ih =>
    intro curl
    simp only [splitImportIDAux]
    by_cases hc : c = ':'
    · subst hc
      rw [if_pos rfl]
      rw [joinColon_cons _ _ (splitImportIDAux_ne_nil rest "")]
      have h2 : joinColon (splitImportIDAux rest "") = String.mk rest := ih []
      rw [h2]
      have harr : (curl ++ [':']) ++ rest = curl ++ ':' :: rest := by simp
      exact congrArg String.mk harr
    · rw [if_neg hc]
      have h2 : joinColon (splitImportIDAux rest (String.mk (curl ++ [c]))) =
          String.mk ((curl ++ [c]) ++ rest) := ih (curl ++ [c])
      have hpush : (String.mk curl).push c = String.mk (curl ++ [c]) := rfl
      rw [hpush, h2]
      have harr : (curl ++ [c]) ++ rest = curl ++ c :: rest := by simp
      exact congrArg String.mk harr

/-- Claim C10 counterexample: the import ID `"x:y"` contains exactly one
colon character yet `ImportState` rejects it (the plan-ID part does not
parse as an integer) — refuting the claim that `ImportState` accepts
an import ID precisely when it contains exactly one colon. -/
theorem importState_one_colon_rejected_cex :
    importStateParts "x:y" = .error invalidPlanIDMsg ∧ colonCount "x:y".toList = 1 := by
  exact ⟨rfl, rfl⟩

/-- Claim C10 (amended): `splitImportID` is a lossless inverse of joining
with colons — for every input the returned list is non-empty, its length
is the number of colon characters plus one, and interleaving its elements
with colons reproduces the input exactly. Consequently `ImportState`
passes its two-part format check precisely when the input contains exactly
one colon, and accepts precisely when additionally the first part parses
as a 64-bit integer. -/
theorem splitImportID_lossless :
    ∀ (id : String),
      splitImportID id ≠ [] ∧
      (splitImportID id).length = colonCount id.toList + 1 ∧
      joinColon (splitImportID id) = id ∧
      (importStateParts id = .error invalidImportFormatMsg ↔ colonCount id.toList ≠ 1) ∧
      ((∃ v, importStateParts id = .ok v) ↔
        colonCount id.toList = 1 ∧ (parseInt64 ((splitImportID id).headD "")).isSome = true) := by
  intro id
  have hne : splitImportID id ≠ [] := splitImportIDAux_ne_nil id.toList ""
  have hlen : (splitImportID id).length = colonCount id.toList + 1 :=
    splitImportIDAux_length id.toList ""
  have hjoin : joinColon (splitImportID id) = id := splitImportIDAux_join id.toList []
  refine ⟨hne, hlen, hjoin, ?_, ?_⟩
  · cases hs : splitImportID id with
    | nil => exact absurd hs hne
    | cons a tl =>
      cases tl with
      | nil =>
        rw [hs] at hlen
        have hcc : colonCount id.toList = 0 := by
          simp only [List.length_cons, List.length_nil] at hlen
          omega
        constructor
        · intro _; omega
        · intro _
          simp only [importStateParts, hs]
      | cons b tl2 =>
        cases tl2 with
        | nil =>
          rw [hs] at hlen
          have hcc : colonCount id.toList = 1 := by
            simp only [List.length_cons, List.length_nil] at hlen
            omega
          cases hp : parseInt64 a with
          | none =>
            constructor
            · intro hcontra
              simp only [importStateParts, hs, hp] at hcontra
              exact absurd (Except.error.inj hcontra) (by decide)
            · intro hcontra; exact absurd hcc hcontra
          | some n =>
            constructor
            · intro hcontra
              simp only [importStateParts, hs, hp] at hcontra
              exact Except.noConfusion hcontra
            · intro hcontra; exact absurd hcc hcontra
        | cons d tl3 =>
          rw [hs] at hlen
          have hcc : 2 ≤ colonCount id.toList := by
            simp only [List.length_cons] at hlen
            omega
          constructor
          · intro _; omega
          · intro _
            simp only [importStateParts, hs]
  · cases hs : splitImportID id with
    | nil => exact absurd hs hne
    | cons a tl =>
      cases tl with
      | nil =>
        rw [hs] at hlen
        have hcc : colonCount id.toList = 0 := by
          simp only [List.length_cons, List.length_nil] at hlen
          omega
        constructor
        · rintro ⟨v, hv⟩
          simp only [importStateParts, hs] at hv
          exact Except.noConfusion hv
        · rintro ⟨h1, _⟩
          omega
      | cons b tl2 =>
        cases tl2 with
        | nil =>
          rw [hs] at hlen
          have hcc : colonCount id.toList = 1 := by
            simp only [List.length_cons, List.length_nil] at hlen
            omega
          cases hp : parseInt64 a with
          | none =>
            constructor
            · rintro ⟨v, hv⟩
              simp only [importStateParts, hs, hp] at hv
              exact Except.noConfusion hv
            · rintro ⟨_, hsome⟩
              simp only [List.headD_cons, hp, Option.isSome_none] at hsome
              exact Bool.noConfusion hsome
          | some n =>
            constructor
            · intro _
              refine ⟨hcc, ?_⟩
              simp only [List.headD_cons, hp, Option.isSome_some]
            · intro _
              refine ⟨(n, b), ?_⟩
              simp only [importStateParts, hs, hp]
        | cons d tl3 =>
          rw [hs] at hlen
          have hcc : 2 ≤ colonCount id.toList := by
            simp only [List.length_cons] at hlen
            omega
          constructor
          · rintro ⟨v, hv⟩
            simp only [importStateParts, hs] at hv
            exact Except.noConfusion hv
          · rintro ⟨h1, _⟩
            omega

theorem splitImportID_lossless_witness :
    joinColon (splitImportID "12:34") = "12:34" ∧
    (∃ v, importStateParts "12:34" = .ok v) :=
  ⟨(splitImportID_lossless "12:34").2.2.1,
   ((splitImportID_lossless "12:34").2.2.2.2).mpr (by decide)⟩


end Crayon
